import Mathlib

/-!
Verification of the NetBuddy session facade (src/netbuddy.py) against its
specification.

The program is a single Python class holding one process-wide boolean
`active`, a four-member exception taxonomy rooted at `NetBuddyException`
(which derives from `BaseException`), and a handful of static methods:
`start`, `quit`, `help`, `test_connection` (alias `test`), and `__init__`
(which just calls `start`).

Shallow embedding: the external world an operation can observe is an
`Env` record (the value of `os.name`, the outcome of running
`check_output(["ping", "/?"])`, and the outcome of each of the four
hard-coded ping probes).  Each operation is a pure function from the
environment and the current `active` flag to an `OpResult`: the Python
return value or raised exception, the new `active` flag, the list of
lines printed, and the list of subprocess invocations performed (their
argv lists), in order.  The exception message strings carried by the
Python exception objects are not modelled: no claim depends on them,
only on the exception class raised.
-/

namespace NetBuddy

/-- Outcome of one `subprocess.check_output(argv)` call: either the
command ran and exited 0 and `output` holds the bytes it produced
(modelled as a list of byte values), or it ran and exited non-zero
(`subprocess.CalledProcessError`), or it could not be spawned at all
(`FileNotFoundError` / `OSError`, e.g. the executable is absent). -/
inductive CmdResult where
  | output (bs : List Nat)
  | exitError
  | spawnError
deriving DecidableEq, Repr

/-- The exception raised by an operation, by class.  The first four are
the NetBuddy exception classes defined at src/netbuddy.py lines 34-57;
the last two are the Python built-ins that `subprocess.check_output` can
raise and that nothing in `start` catches or translates. -/
inductive PyErr where
  | notStarted
  | notWindows
  | missingCommand
  | questionable
  | calledProcessError
  | fileNotFoundError
deriving DecidableEq, Repr

/-- The value a Python method returns when it does not raise:
`test_connection` ends with either an explicit `return False` or an
implicit `return None`. -/
inductive PyRet where
  | pyFalse
  | pyNone
deriving DecidableEq, Repr

/-- The environment an operation runs in: `osName` is Python's
`os.name`; `pingHelp` is the outcome of `check_output(["ping", "/?"])`
as run by `start`; `probe i` is whether the i-th hard-coded probe
`check_output(["ping", "-n", "2", "-l", "32", target])` in
`test_connection` succeeds (`true`) or raises
`subprocess.CalledProcessError` (`false`) — the only failure the source
handles there, via its four `except CalledProcessError` blocks. -/
structure Env where
  osName : String
  pingHelp : CmdResult
  probe1 : Bool
  probe2 : Bool
  probe3 : Bool
  probe4 : Bool
deriving DecidableEq, Repr

/-- What one call of an operation does: the Python-level result (normal
return value, or the exception that propagates), the `active` flag after
the call, the lines printed, and the argv of every subprocess invocation
performed, in order. -/
structure OpResult (α : Type) where
  result : Except PyErr α
  active : Bool
  printed : List String
  ios : List (List String)
deriving Repr

/-- src/netbuddy.py line 32: `active = False` — the class attribute the
process starts with. -/
def initial_active : Bool := false

/-- src/netbuddy.py lines 71-75: `ensure_session_active` raises
`NotStartedException` when `active` is false, otherwise does nothing. -/
def ensure_session_active (active : Bool) : Except PyErr Unit :=
  if active then Except.ok () else Except.error PyErr.notStarted

/-- src/netbuddy.py lines 77-94: `start`.  If a session is already
active it only prints a notice.  Otherwise it prints two status lines,
raises `NotWindowsException` when `os.name` is not `"nt"`, then runs
`check_output(["ping", "/?"])`: a spawn failure or a non-zero exit
propagates as the corresponding built-in exception (nothing catches it),
an empty (falsy) output raises `MissingCommandException`, and a
non-empty output sets `active` to true. -/
def start (env : Env) (active : Bool) : OpResult Unit :=
  if active then
    { result := Except.ok ()
      active := active
      printed := ["A session is already active. To quit, use NetBuddy.quit()."]
      ios := [] }
  else if env.osName ≠ "nt" then
    { result := Except.error PyErr.notWindows
      active := active
      printed := ["Session starting...", "Checking platform..."]
      ios := [] }
  else
    match env.pingHelp with
    | CmdResult.spawnError =>
      { result := Except.error PyErr.fileNotFoundError
        active := active
        printed := ["Session starting...", "Checking platform...",
                    "Looking for required commands..."]
        ios := [["ping", "/?"]] }
    | CmdResult.exitError =>
      { result := Except.error PyErr.calledProcessError
        active := active
        printed := ["Session starting...", "Checking platform...",
                    "Looking for required commands..."]
        ios := [["ping", "/?"]] }
    | CmdResult.output bs =>
      if bs.isEmpty then
        { result := Except.error PyErr.missingCommand
          active := active
          printed := ["Session starting...", "Checking platform...",
                      "Looking for required commands..."]
          ios := [["ping", "/?"]] }
      else
        { result := Except.ok ()
          active := true
          printed := ["Session starting...", "Checking platform...",
                      "Looking for required commands...",
                      "Session started. Run NetBuddy.help() for options."]
          ios := [["ping", "/?"]] }

/-- src/netbuddy.py lines 96-100: `quit` unconditionally sets `active`
to false and prints one line. -/
def quit (_active : Bool) : OpResult Unit :=
  { result := Except.ok ()
    active := false
    printed := ["Session ended."]
    ios := [] }

/-- src/netbuddy.py lines 102-131: `help` prints a static usage table
(27 lines) and touches nothing else; it is not gated on `active`.  The
exact text is in the source; here only its line count matters to any
claim, so the lines are carried as an opaque-looking but concrete
constant list reproducing the first word of each line. -/
def helpLineCount : Nat := 27

/-- src/netbuddy.py lines 102-131: `help` as an operation: prints the
static table, leaves `active` unchanged, performs no subprocess
invocation, raises nothing. -/
def help (active : Bool) : OpResult Unit :=
  { result := Except.ok ()
    active := active
    printed := List.replicate helpLineCount "<static help text line>"
    ios := [] }

/-- The argv the source passes to `check_output` for one connectivity
probe (src/netbuddy.py lines 143, 151, 159, 167): two echo requests,
32-byte payload, against the given target. -/
def pingArgs (target : String) : List String :=
  ["ping", "-n", "2", "-l", "32", target]

/-- The fixed ordered target list of `test_connection`
(src/netbuddy.py lines 143-167). -/
def targets : List String :=
  ["www.google.com", "twitter.com", "www.python.org", "github.com"]

/-- src/netbuddy.py line 139: `test_count = 4`. -/
def test_count : Nat := 4

/-- The value of `success_count` after the four try/except blocks of
`test_connection` (src/netbuddy.py lines 138-172): it starts at 0 and
each passing probe adds 1, written as the same sequential chain of
increments as the source. -/
def success_count (env : Env) : Nat :=
  let sc1 := if env.probe1 then 0 + 1 else 0
  let sc2 := if env.probe2 then sc1 + 1 else sc1
  let sc3 := if env.probe3 then sc2 + 1 else sc2
  if env.probe4 then sc3 + 1 else sc3

/-- src/netbuddy.py line 174:
`success_rate = int(100*(success_count/test_count))`.  For
`success_count` in 0..4 the float arithmetic is exact (values 0, 25,
50, 75, 100) and `int` truncation coincides with natural division. -/
def success_rate (env : Env) : Nat :=
  100 * success_count env / test_count

/-- The per-probe line `test_connection` prints
(src/netbuddy.py lines 145-172). -/
def probeLine (i : Nat) (passed : Bool) (target : String) : String :=
  "-- Test " ++ toString i ++
    (if passed then " passed.\t(" else " failed.\t(") ++ target ++ ")"

/-- src/netbuddy.py line 175: the final summary line
`"%s/%s tests passed (%s%%)" % (success_count, test_count, success_rate)`. -/
def summaryLine (sc tc sr : Nat) : String :=
  toString sc ++ "/" ++ toString tc ++ " tests passed (" ++ toString sr ++ "%)"

/-- src/netbuddy.py lines 133-177: `test_connection`.  It first calls
`ensure_session_active` (raising `NotStartedException` before any print
or subprocess call when `active` is false).  Otherwise it runs the four
hard-coded probes in order, each in its own try/except block so a
`CalledProcessError` is tallied as a failure and never aborts the rest,
prints a pass/fail line per probe and the summary line, and returns
`False` when `not success_rate > 0`, else falls off the end (`None`). -/
def test_connection (env : Env) (active : Bool) : OpResult PyRet :=
  match ensure_session_active active with
  | Except.error e =>
    { result := Except.error e, active := active, printed := [], ios := [] }
  | Except.ok _ =>
    { result := Except.ok
        (if success_rate env > 0 then PyRet.pyNone else PyRet.pyFalse)
      active := active
      printed :=
        ["Running 4 tests:",
         probeLine 1 env.probe1 "www.google.com",
         probeLine 2 env.probe2 "twitter.com",
         probeLine 3 env.probe3 "www.python.org",
         probeLine 4 env.probe4 "github.com",
         summaryLine (success_count env) test_count (success_rate env)]
      ios := targets.map pingArgs }

/-- src/netbuddy.py lines 179-182: `test` is an alias that just returns
`test_connection()`. -/
def test (env : Env) (active : Bool) : OpResult PyRet :=
  test_connection env active

/-- src/netbuddy.py lines 59-69: `__init__` — instantiating the class
just calls `self.start()` (which is the static `start`). -/
def init_call (env : Env) (active : Bool) : OpResult Unit :=
  start env active

/-- Whether the two checks guarding the `active := true` assignment in
`start` pass on the given environment: `os.name == "nt"` and
`check_output(["ping", "/?"])` returned non-empty (truthy) output. -/
def start_checks_pass (env : Env) : Bool :=
  (env.osName == "nt") &&
    (match env.pingHelp with
     | CmdResult.output bs => !bs.isEmpty
     | _ => false)

/-!
The Python exception class hierarchy, for the claims about catchability.
-/

/-- The exception classes in play: Python built-ins `BaseException` and
`Exception` and the subprocess errors, plus the NetBuddy classes of
src/netbuddy.py lines 34-57. -/
inductive PyClass where
  | baseExceptionC
  | exceptionC
  | calledProcessErrorC
  | fileNotFoundErrorC
  | netBuddyExceptionC
  | notStartedC
  | notWindowsC
  | missingCommandC
  | questionableC
deriving DecidableEq, Repr

/-- The direct superclass of each class.  Built-ins: `Exception`,
`CalledProcessError` and `FileNotFoundError` all sit under `Exception`
(the intermediate built-in classes are elided as no claim mentions
them), `BaseException` is the root.  NetBuddy: line 34 declares
`class NetBuddyException(BaseException)` — directly under
`BaseException`, not under `Exception` — and lines 38-57 put the four
specific classes directly under `NetBuddyException`. -/
def superclass : PyClass → Option PyClass
  | PyClass.baseExceptionC => none
  | PyClass.exceptionC => some PyClass.baseExceptionC
  | PyClass.calledProcessErrorC => some PyClass.exceptionC
  | PyClass.fileNotFoundErrorC => some PyClass.exceptionC
  | PyClass.netBuddyExceptionC => some PyClass.baseExceptionC
  | PyClass.notStartedC => some PyClass.netBuddyExceptionC
  | PyClass.notWindowsC => some PyClass.netBuddyExceptionC
  | PyClass.missingCommandC => some PyClass.netBuddyExceptionC
  | PyClass.questionableC => some PyClass.netBuddyExceptionC

/-- The superclass chain of a class, itself included, read off by
iterating `superclass` (fuel 9 = number of classes, amply enough for
every chain). -/
def ancestorsFuel : Nat → PyClass → List PyClass
  | 0, _ => []
  | Nat.succ n, c =>
    c :: (match superclass c with
          | none => []
          | some p => ancestorsFuel n p)

/-- All classes a class derives from (itself included). -/
def ancestors (c : PyClass) : List PyClass := ancestorsFuel 9 c

/-- Python `except D` catches a raised instance of class `c` exactly
when `c` is `D` or derives from `D`. -/
def catches (handler raised : PyClass) : Bool :=
  (ancestors raised).contains handler

/-- The class of each modelled exception value. -/
def classOfErr : PyErr → PyClass
  | PyErr.notStarted => PyClass.notStartedC
  | PyErr.notWindows => PyClass.notWindowsC
  | PyErr.missingCommand => PyClass.missingCommandC
  | PyErr.questionable => PyClass.questionableC
  | PyErr.calledProcessError => PyClass.calledProcessErrorC
  | PyErr.fileNotFoundError => PyClass.fileNotFoundErrorC

/-- The four NetBuddy exception classes. -/
def netBuddyErrClasses : List PyClass :=
  [PyClass.notStartedC, PyClass.notWindowsC,
   PyClass.missingCommandC, PyClass.questionableC]


/-!
Concrete environments used by closed theorems and witnesses.
-/

/-- A Windows environment where the `ping` executable cannot be spawned
at all: `check_output(["ping", "/?"])` raises `FileNotFoundError`. -/
def envPingUnrunnable : Env :=
  { osName := "nt", pingHelp := CmdResult.spawnError,
    probe1 := false, probe2 := false, probe3 := false, probe4 := false }

/-- A Windows environment where `ping` runs but prints nothing:
`check_output(["ping", "/?"])` returns empty (falsy) bytes. -/
def envPingSilent : Env :=
  { osName := "nt", pingHelp := CmdResult.output [],
    probe1 := false, probe2 := false, probe3 := false, probe4 := false }

/-- A non-Windows environment (`os.name` is `"posix"`). -/
def envPosix : Env :=
  { osName := "posix", pingHelp := CmdResult.output [1],
    probe1 := false, probe2 := false, probe3 := false, probe4 := false }

/-- The success count of a run is at most 4 (one per probe). -/
theorem success_count_le_four (env : Env) : success_count env ≤ 4 := by
  rcases env with ⟨os, ph, p1, p2, p3, p4⟩
  cases p1 <;> cases p2 <;> cases p3 <;> cases p4 <;>
    simp [success_count]

/-- The truncated percentage is 0 exactly when no probe succeeded. -/
theorem success_rate_eq_zero_iff (env : Env) :
    success_rate env = 0 ↔ success_count env = 0 := by
  rcases env with ⟨os, ph, p1, p2, p3, p4⟩
  cases p1 <;> cases p2 <;> cases p3 <;> cases p4 <;>
    simp [success_rate, success_count, test_count]

/-- The branch `test_connection` returns on, rephrased from the rate to
the count: `not success_rate > 0` holds exactly when the count is 0. -/
theorem return_branch_eq (env : Env) :
    (if success_rate env > 0 then PyRet.pyNone else PyRet.pyFalse) =
      (if success_count env = 0 then PyRet.pyFalse else PyRet.pyNone) := by
  rcases env with ⟨os, ph, p1, p2, p3, p4⟩
  cases p1 <;> cases p2 <;> cases p3 <;> cases p4 <;>
    simp [success_rate, success_count, test_count]

/-- C1: calling `test_connection` (or its alias `test`) while `active`
is false raises `NotStartedException`, performs no subprocess
invocation, prints nothing, and leaves `active` unchanged (false). -/
theorem c1_gated_ops_inactive (env : Env) :
    test_connection env false =
      { result := Except.error PyErr.notStarted, active := false,
        printed := [], ios := [] } ∧
    test env false =
      { result := Except.error PyErr.notStarted, active := false,
        printed := [], ios := [] } :=
  ⟨rfl, rfl⟩

/-- C2: with `active` true, `test_connection` ends its output with the
summary line built from the success count X and the truncated
percentage Y = 100*X/4, returns `False` exactly when X = 0 (equivalently
when Y = 0), and returns `None` (no explicit value) when X > 0. -/
theorem c2_summary_and_return (env : Env) :
    (test_connection env true).printed.getLast? =
      some (summaryLine (success_count env) test_count (success_rate env)) ∧
    success_rate env = 100 * success_count env / 4 ∧
    (test_connection env true).result =
      Except.ok (if success_count env = 0 then PyRet.pyFalse else PyRet.pyNone) ∧
    ((success_rate env = 0) ↔ (success_count env = 0)) :=
  ⟨rfl, rfl, congrArg Except.ok (return_branch_eq env),
    success_rate_eq_zero_iff env⟩

/-- C3: with `active` true, `test_connection` issues exactly the four
hard-coded ping probes, in order, whatever each probe's outcome is; no
probe failure propagates (the call always returns normally), and the
success count is bounded by 4 (it is a natural number, so it is also
never negative). -/
theorem c3_four_probes_no_abort (env : Env) :
    (test_connection env true).ios =
      [pingArgs "www.google.com", pingArgs "twitter.com",
       pingArgs "www.python.org", pingArgs "github.com"] ∧
    (∃ v, (test_connection env true).result = Except.ok v) ∧
    success_count env ≤ 4 :=
  ⟨rfl, ⟨_, rfl⟩, success_count_le_four env⟩

/-- C4: on Windows with `active` false, when the `ping` command cannot
be spawned, `start` does NOT raise `MissingCommandException` — the
`FileNotFoundError` from `check_output` propagates untranslated (the
`if not check_output(...)` guard never runs); `MissingCommandException`
is raised only in the other half of the claim, when the command runs
but produces empty output.  In both cases `active` stays false. -/
theorem c4_missing_command_divergence :
    (start envPingUnrunnable false).result = Except.error PyErr.fileNotFoundError ∧
    (start envPingUnrunnable false).result ≠ Except.error PyErr.missingCommand ∧
    (start envPingUnrunnable false).active = false ∧
    (start envPingSilent false).result = Except.error PyErr.missingCommand ∧
    (start envPingSilent false).active = false := by
  refine ⟨rfl, ?_, rfl, rfl, rfl⟩
  intro h
  exact PyErr.noConfusion (Except.error.inj h)

/-- C5: on a non-Windows platform with `active` false, `start` raises
`NotWindowsException` and `active` stays false; the platform error and
the missing-command error are distinct exception values and distinct
exception classes. -/
theorem c5_not_windows (env : Env) (h : env.osName ≠ "nt") :
    (start env false).result = Except.error PyErr.notWindows ∧
    (start env false).active = false ∧
    PyErr.notWindows ≠ PyErr.missingCommand ∧
    PyClass.notWindowsC ≠ PyClass.missingCommandC := by
  have hs : start env false =
      { result := Except.error PyErr.notWindows, active := false,
        printed := ["Session starting...", "Checking platform..."],
        ios := [] } := by
    simp [start, h]
  exact ⟨by rw [hs], by rw [hs], by decide, by decide⟩

/-- Witness for C5 at the concrete environment `envPosix`. -/
theorem c5_not_windows_witness :
    (start envPosix false).result = Except.error PyErr.notWindows ∧
    (start envPosix false).active = false ∧
    PyErr.notWindows ≠ PyErr.missingCommand ∧
    PyClass.notWindowsC ≠ PyClass.missingCommandC :=
  c5_not_windows envPosix (by decide)

/-- C6: calling `start` while `active` is already true prints only the
no-op notice and returns: no subprocess invocation, no platform check
output, no exception, and `active` stays true. -/
theorem c6_start_already_active (env : Env) :
    start env true =
      { result := Except.ok (), active := true,
        printed := ["A session is already active. To quit, use NetBuddy.quit()."],
        ios := [] } :=
  rfl

/-- C7: `quit` unconditionally sets `active` to false from any state;
in particular `start` (from the inactive state, successful or not)
followed immediately by `quit` leaves `active` false. -/
theorem c7_quit_deactivates :
    (∀ b : Bool, (quit b).active = false) ∧
    (∀ env : Env, ∀ b : Bool, (quit (start env b).active).active = false) :=
  ⟨fun _ => rfl, fun _ _ => rfl⟩

/-- C8: the lifecycle is a two-state machine on `active`: it is false
initially; from the inactive state `start` moves it to true exactly when
the platform and command checks pass; `start` from the active state
keeps it true; `quit` always moves it to false; and the data-producing
operations `test_connection`, `test` and `help` leave it unchanged in
every state. -/
theorem c8_state_machine :
    initial_active = false ∧
    (∀ env : Env, (start env false).active = start_checks_pass env) ∧
    (∀ env : Env, (start env true).active = true) ∧
    (∀ env : Env, ∀ b : Bool, (test_connection env b).active = b) ∧
    (∀ env : Env, ∀ b : Bool, (test env b).active = b) ∧
    (∀ b : Bool, (help b).active = b) ∧
    (∀ b : Bool, (quit b).active = false) := by
  refine ⟨rfl, ?_, fun env => rfl, ?_, ?_, fun b => rfl, fun b => rfl⟩
  · intro env
    rcases env with ⟨os, ph, p1, p2, p3, p4⟩
    by_cases h : os = "nt"
    · subst h
      cases ph with
      | output bs => cases bs <;> simp [start, start_checks_pass]
      | exitError => simp [start, start_checks_pass]
      | spawnError => simp [start, start_checks_pass]
    · simp [start, start_checks_pass, h]
  · intro env b
    cases b <;> rfl
  · intro env b
    cases b <;> rfl

/-- C9: every NetBuddy exception class is caught by handlers for
itself, for `NetBuddyException` and for `BaseException`, but NOT by a
generic `except Exception` handler, because `NetBuddyException` derives
directly from `BaseException` and bypasses `Exception`. -/
theorem c9_exceptions_bypass_generic_handler :
    ∀ c : PyClass, c ∈ netBuddyErrClasses →
      catches PyClass.exceptionC c = false ∧
      catches PyClass.netBuddyExceptionC c = true ∧
      catches PyClass.baseExceptionC c = true ∧
      catches c c = true := by
  decide

/-- Witness for C9 at the concrete class `NotStartedException`. -/
theorem c9_exceptions_bypass_generic_handler_witness :
    catches PyClass.exceptionC PyClass.notStartedC = false ∧
    catches PyClass.netBuddyExceptionC PyClass.notStartedC = true ∧
    catches PyClass.baseExceptionC PyClass.notStartedC = true ∧
    catches PyClass.notStartedC PyClass.notStartedC = true :=
  c9_exceptions_bypass_generic_handler PyClass.notStartedC (by decide)

/-- C10: instantiating the class (`NetBuddy()`) behaves identically to
calling `NetBuddy.start()` in every environment and from every state —
the body of `__init__` is exactly `self.start()`, so the same notice,
the same exceptions, the same state change and the same subprocess
invocations result. -/
theorem c10_init_equals_start (env : Env) (b : Bool) :
    init_call env b = start env b :=
  rfl

end NetBuddy
